import Mathlib

/-!
Shallow embedding of `cli.py` from the cloud-identity-membership-expiry
repository: a command-line client for the Cloud Identity Groups API.

Modelling conventions:
* JSON values exchanged with the remote API are modelled by the inductive
  `Json`; Python dictionaries keep their insertion order as association lists.
* The remote API (the generated discovery client plus the HTTP transport) is
  external to the repository; it is modelled by an `Oracle`, a function from
  the request a handler issues to either a successful JSON response or an
  `ApiError` (an exception raised by the transport or the remote service).
* The local filesystem the credential resolver inspects is the structure `FS`;
  file contents are carried as strings (`none` = the file does not exist).
* The external date parser (`dateutil.parser.parse` composed with
  `strftime of the epoch-seconds directive`) is a parameter
  `pe : String -> Option Int`: `some n` means the parser accepts the string
  and the parsed calendar date/time corresponds to epoch second `n`.
* Each click command handler becomes a function returning a `HandlerResult`:
  `exited msg` models a fatal `exit(...)` from `build_service`, and
  `done trace out` models normal termination having issued the listed remote
  requests in order and printed `out`.
* Python runtime exceptions raised inside the `try` block of a handler (KeyError,
  TypeError, IndexError, ...) are rendered through the same `except` clause;
  their message strings here are stand-ins for the interpreter text, which
  no claim depends on.
-/

/-- JSON values: the bodies and responses exchanged with the remote API.
Objects are association lists in Python dict insertion order. -/
inductive Json where
  | null : Json
  | str : String → Json
  | num : Int → Json
  | arr : List Json → Json
  | obj : List (String × Json) → Json

/-- Whether a JSON value is an object (a Python dict). -/
def Json.isObj : Json → Bool
  | .obj _ => true
  | _ => false

/-- First binding of a key in an association list (Python dict lookup). -/
def lookupField : List (String × Json) → String → Option Json
  | [], _ => none
  | (k, v) :: rest, key => if k = key then some v else lookupField rest key

/-- `Json.get j k` models Python `j.get(k)` on a dict: `none` is Python
`None`, returned both for a missing key and (never reached on the paths the
handlers exercise) for a non-dict. -/
def Json.get (j : Json) (k : String) : Option Json :=
  match j with
  | .obj fields => lookupField fields k
  | _ => none

/-- `pyIndex j k` models Python `j[k]` with a string key: a missing key
raises `KeyError`, indexing a non-dict raises; both surface as a rendered
exception message. -/
def pyIndex (j : Json) (k : String) : Except String Json :=
  match j with
  | .obj fields =>
    match lookupField fields k with
    | some v => .ok v
    | none => .error ("KeyError: " ++ k)
  | _ => .error ("TypeError: value is not subscriptable by key " ++ k)

/-- An exception raised by a remote call: `msg` is `str(e)` and `content`
is the raw response body carried by the exception when present
(`e.content`). -/
structure ApiError where
  msg : String
  content : Option Json

/-- A remote request issued by a handler, as the generated client sees it:
the method, its parameters, the JSON body, and the raw query-string suffix
the handler appends to the request URI after building it. -/
inductive Request where
  | groupsCreate (body : Json) (uriSuffix : String)
  | groupsGet (name : Option Json)
  | groupsLookup (uriSuffix : String)
  | groupsSearch (query : String) (pageSize : Int) (view : String)
  | membershipsList (parent : String) (uriSuffix : String)
  | membershipsGet (name : Json)
  | membershipsCreate (parent : String) (body : Json)
  | membershipsPatch (name : String) (body : Json) (uriSuffix : String)

/-- The remote API and transport: for each issued request, either the
decoded JSON response of `execute()` or the exception it raises. -/
def Oracle : Type := Request → Except ApiError Json

/-- What a handler prints: a table of records (via `render` on a list) or a
rendered exception (via `render_exception`: the string form of the exception,
plus a pretty-printed dump of its raw response body when present). -/
inductive Output where
  | table (rows : List Json)
  | exc (msg : String) (content : Option Json)

/-- `render_exception e`: prints `str(e)` and, when the exception carries a
`content` attribute, a JSON dump of it. -/
def renderExc (e : ApiError) : Output :=
  .exc e.msg e.content

/-- `render` applied to a list of records: prints a table headed by the
keys of the first record. An empty list raises IndexError and a non-dict row
raises AttributeError; both are caught by the `except` clause of the handler,
so they surface as a rendered exception. -/
def render_list (rows : List Json) : Output :=
  match rows with
  | [] => .exc "IndexError: list index out of range" none
  | _ :: _ =>
    if rows.all Json.isObj then .table rows
    else .exc "AttributeError: row object has no attribute keys" none

/-- Outcome of running one command handler: `exited` models `exit(...)`
(fatal process exit from `build_service`), `done trace out` models normal
termination after issuing `trace` (in order) and printing `out`. -/
inductive HandlerResult where
  | exited (msg : String)
  | done (trace : List Request) (out : Output)

/-- Python `re.search` of the anchored all-digit pattern (start anchor,
one or more of the digits zero to nine, end anchor): a match requires the
whole string to be one or more ASCII digits, where the end anchor also
matches just before a single trailing newline. -/
def reSearchDigits (s : String) : Bool :=
  let cs := s.data
  let core := if cs.getLast? = some (Char.ofNat 10) then cs.dropLast else cs
  !core.isEmpty && core.all (fun c => c.isDigit)

/-- `get_expiry` from `cli.py`, lifted to the optional click flag value: on
Python `None` the regex search raises TypeError; an all-digit string is
returned unchanged; otherwise the external date parser `pe` either accepts
the string (the epoch-seconds string of the parsed date/time is returned)
or raises ValueError. Errors propagate to the `try` block of the calling handler. -/
def get_expiry (pe : String → Option Int) : Option String → Except String String
  | none => .error "TypeError: expected string or bytes-like object"
  | some s =>
    if reSearchDigits s then .ok s
    else
      match pe s with
      | some n => .ok (toString n)
      | none => .error ("ValueError: Unknown string format: " ++ s)

/-- Python truthiness of an optional string flag: `None` and the empty
string are falsy. -/
def pyTruthy : Option String → Bool
  | none => false
  | some s => !(s == "")

/-- Python `str.strip()` with no argument: remove leading and trailing
whitespace characters. -/
def pyStrip (s : String) : String :=
  ⟨((s.data.dropWhile Char.isWhitespace).reverse.dropWhile Char.isWhitespace).reverse⟩

/-- The Cloud Identity groups-management OAuth scope list (`SCOPES`). -/
def SCOPES : List String := ["https://www.googleapis.com/auth/cloud-identity.groups"]

/-- `API_KEY_FILE`: the api key path under the installation directory. -/
def API_KEY_FILE (dir : String) : String := dir ++ "/api_key.txt"

/-- The discovery URL built from the api key: service name, the alpha API
version, the key, and the trusted-testers label. -/
def discoveryUrl (apiKey : String) : String :=
  "https://cloudidentity.googleapis.com/$discovery/rest?version=v1alpha1&key="
    ++ apiKey ++ "&labels=GOOGLE_GROUPS_API_TRUSTED_TESTERS"

/-- The credential `build_service` resolves: a service-account credential
with its scopes and the impersonated (delegated) subject email, or the
OAuth token previously stored by the separate login flow. -/
inductive Credential where
  | serviceAccount (scopes : List String) (subject : String)
  | oauthToken (token : String)

/-- The service object `build_service` returns: the resolved credential,
the developer key, and the discovery URL the client was built from. -/
structure Service where
  credential : Credential
  developerKey : String
  serviceDiscoveryUrl : String

/-- The local files the credential resolver inspects. `none` means the file
does not exist; `some c` means it exists with contents `c` (for the token
file, the stored credential blob). -/
structure FS where
  api_key : Option String
  client_secret_oauth : Bool
  token : Option String
  service_account_credentials : Bool
  delegated_email : Option String

/-- `build_service` from `cli.py`: fatal exit when the api key file is
missing; prefer the service-account path when both the service-account
credentials file and the delegated-email file exist (scoped credential
impersonating the stripped email read from the file); otherwise require the
OAuth client-secret file and the stored token file, exiting fatally with an
explanatory message when either is missing. -/
def build_service (dir : String) (fs : FS) : Except String Service :=
  match fs.api_key with
  | none => .error ("Please create a file with your API key at " ++ API_KEY_FILE dir)
  | some keyRaw =>
    let apiKey := pyStrip keyRaw
    match fs.service_account_credentials, fs.delegated_email with
    | true, some emailRaw =>
      .ok { credential := .serviceAccount SCOPES (pyStrip emailRaw),
            developerKey := apiKey,
            serviceDiscoveryUrl := discoveryUrl apiKey }
    | _, _ =>
      if fs.client_secret_oauth then
        match fs.token with
        | none => .error "Please run login.py to set up authentication"
        | some tok =>
          .ok { credential := .oauthToken tok,
                developerKey := apiKey,
                serviceDiscoveryUrl := discoveryUrl apiKey }
      else .error "Please download your Oauth client file (client_secret_oauth.json)."

/-- The single-quote character, used in the search query literal. -/
def squote : String := String.singleton (Char.ofNat 39)

/-- The group body `groupDef` built by `groups.create`: customer parent,
group key, optional description and display name (Python `None` becomes
JSON null), and the discussion-forum label. -/
def groupDef (customer_id key : String) (display_name description : Option String) : Json :=
  .obj [("parent", .str ("customerId/" ++ customer_id)),
        ("groupKey", .obj [("id", .str key)]),
        ("description", (description.map Json.str).getD .null),
        ("displayName", (display_name.map Json.str).getD .null),
        ("labels", .obj [("system/groups/discussion_forum", .str "")])]

/-- The search query of `groups.list`: all groups under the customer parent
carrying the discussion-forum label. -/
def searchQuery (customer_id : String) : String :=
  "parent==" ++ squote ++ "customerId/" ++ customer_id ++ squote ++ " && "
    ++ squote ++ "system/groups/discussion_forum" ++ squote ++ " in labels"

/-- The membership body built by `memberships.create`: empty name, the
member key, the MEMBER role, and, when an expiry was supplied, the
expiry-detail block holding the epoch-seconds string. -/
def membershipBody (member : String) (expirySeconds : Option String) : Json :=
  let base := [("name", Json.str ""),
               ("preferred_member_key", Json.obj [("id", Json.str member)]),
               ("roles", Json.arr [Json.obj [("name", Json.str "MEMBER")]])]
  match expirySeconds with
  | none => .obj base
  | some s => .obj (base ++ [("expiry_detail",
      Json.obj [("expire_time", Json.obj [("seconds", Json.str s)])])])

/-- The patch body built by `memberships.expire`: exactly the nested
expiry-detail block holding the epoch-seconds string, nothing else. -/
def expireBody (expirySeconds : String) : Json :=
  .obj [("expiry_detail",
    Json.obj [("expire_time", Json.obj [("seconds", Json.str expirySeconds)])])]

/-- The `groups.create` handler: build the service, build `groupDef`,
issue the create request (with the initial-owner query suffix), then
re-fetch the created group by the `name` nested under `response` in the
create response, and render the single re-fetched record. Every exception
inside the `try` block is rendered, not propagated. -/
def groups_create (dir : String) (fs : FS) (o : Oracle) (customer_id key : String)
    (display_name description : Option String) : HandlerResult :=
  match build_service dir fs with
  | .error m => .exited m
  | .ok _ =>
    let body := groupDef customer_id key display_name description
    let req := Request.groupsCreate body "&initialGroupConfig=WITH_INITIAL_OWNER"
    match o req with
    | .error e => .done [req] (renderExc e)
    | .ok resp =>
      match pyIndex resp "response" with
      | .error m => .done [req] (.exc m none)
      | .ok rr =>
        match pyIndex rr "name" with
        | .error m => .done [req] (.exc m none)
        | .ok nm =>
          let req2 := Request.groupsGet (some nm)
          match o req2 with
          | .error e => .done [req, req2] (renderExc e)
          | .ok g => .done [req, req2] (render_list [g])

/-- The `groups.get` handler: with neither flag, render the instruction and
return before building the service; with only the key, resolve it to a name
via one lookup call, then get by that name; with the name present (the key
flag, if also given, is never consulted), get by the name directly. -/
def groups_get (dir : String) (fs : FS) (o : Oracle) :
    Option String → Option String → HandlerResult
  | none, none => .done [] (.exc "Either --name or --key are required." none)
  | none, some k =>
    (match build_service dir fs with
     | .error m => .exited m
     | .ok _ =>
       let lreq := Request.groupsLookup ("&groupKey.id=" ++ k)
       match o lreq with
       | .error e => .done [lreq] (renderExc e)
       | .ok lresp =>
         match lresp with
         | .obj lfields =>
           let nm := lookupField lfields "name"
           let greq := Request.groupsGet nm
           (match o greq with
            | .error e => .done [lreq, greq] (renderExc e)
            | .ok g => .done [lreq, greq] (render_list [g]))
         | _ => .done [lreq] (.exc "AttributeError: response object has no attribute get" none))
  | some n, _ =>
    match build_service dir fs with
    | .error m => .exited m
    | .ok _ =>
      let greq := Request.groupsGet (some (Json.str n))
      match o greq with
      | .error e => .done [greq] (renderExc e)
      | .ok g => .done [greq] (render_list [g])

/-- The `groups.list` handler: issue one search scoped to the customer and
the discussion-forum label with the given page size and the BASIC view,
take the `groups` field of the response, and render it. -/
def groups_list (dir : String) (fs : FS) (o : Oracle) (customer_id : String)
    (page_size : Int) : HandlerResult :=
  match build_service dir fs with
  | .error m => .exited m
  | .ok _ =>
    let req := Request.groupsSearch (searchQuery customer_id) page_size "BASIC"
    match o req with
    | .error e => .done [req] (renderExc e)
    | .ok resp =>
      match pyIndex resp "groups" with
      | .error m => .done [req] (.exc m none)
      | .ok gs =>
        match gs with
        | .arr rows => .done [req] (render_list rows)
        | _ => .done [req] (.exc "TypeError: groups field is not a list" none)

/-- The `memberships.list` handler: issue one full-view list request, take
the `memberships` field; when the first record lacks the `expireTime` key,
insert an empty string for it (at the end, Python dict insertion order)
before rendering the whole list. -/
def memberships_list (dir : String) (fs : FS) (o : Oracle) (name : String) :
    HandlerResult :=
  match build_service dir fs with
  | .error m => .exited m
  | .ok _ =>
    let req := Request.membershipsList name "&view=FULL"
    match o req with
    | .error e => .done [req] (renderExc e)
    | .ok resp =>
      match pyIndex resp "memberships" with
      | .error m => .done [req] (.exc m none)
      | .ok ms =>
        match ms with
        | .arr [] => .done [req] (.exc "IndexError: list index out of range" none)
        | .arr (m0 :: rest) =>
          (match m0 with
           | .obj f0 =>
             let m0fixed := if (lookupField f0 "expireTime").isSome then Json.obj f0
                            else Json.obj (f0 ++ [("expireTime", Json.str "")])
             .done [req] (render_list (m0fixed :: rest))
           | _ => .done [req] (.exc "AttributeError: record object has no attribute keys" none))
        | _ => .done [req] (.exc "TypeError: memberships field is not a list" none)

/-- The `memberships.get` handler: one direct fetch by membership name,
rendered as a single-row table. -/
def memberships_get (dir : String) (fs : FS) (o : Oracle) (name : String) :
    HandlerResult :=
  match build_service dir fs with
  | .error m => .exited m
  | .ok _ =>
    let req := Request.membershipsGet (Json.str name)
    match o req with
    | .error e => .done [req] (renderExc e)
    | .ok r => .done [req] (render_list [r])

/-- Shared tail of `memberships.create`: issue the create, re-fetch by the
`name` nested under `response` in the create response, render the record. -/
def memberships_create_issue (o : Oracle) (name : String) (body : Json) :
    HandlerResult :=
  let req := Request.membershipsCreate name body
  match o req with
  | .error e => .done [req] (renderExc e)
  | .ok resp =>
    match pyIndex resp "response" with
    | .error m => .done [req] (.exc m none)
    | .ok rr =>
      match pyIndex rr "name" with
      | .error m => .done [req] (.exc m none)
      | .ok nm =>
        let req2 := Request.membershipsGet nm
        match o req2 with
        | .error e => .done [req, req2] (renderExc e)
        | .ok m => .done [req, req2] (render_list [m])

/-- The `memberships.create` handler: the expiry block is added only when
the expiry flag is truthy; `get_expiry` runs inside the `try` block, so its
exceptions are rendered, not propagated. -/
def memberships_create (dir : String) (fs : FS) (o : Oracle)
    (pe : String → Option Int) (name member : String) (expiry : Option String) :
    HandlerResult :=
  match build_service dir fs with
  | .error m => .exited m
  | .ok _ =>
    if pyTruthy expiry then
      match get_expiry pe expiry with
      | .error m => .done [] (.exc m none)
      | .ok secs => memberships_create_issue o name (membershipBody member (some secs))
    else memberships_create_issue o name (membershipBody member none)

/-- The `memberships.expire` handler: `get_expiry` runs inside the `try`
block while building the patch body; the patch carries only the
expiry-detail block and the explicit update mask, and on success the
membership is re-fetched by name and rendered. -/
def memberships_expire (dir : String) (fs : FS) (o : Oracle)
    (pe : String → Option Int) (name : String) (expiry : Option String) :
    HandlerResult :=
  match build_service dir fs with
  | .error m => .exited m
  | .ok _ =>
    match get_expiry pe expiry with
    | .error m => .done [] (.exc m none)
    | .ok secs =>
      let req := Request.membershipsPatch name (expireBody secs)
                   "&updateMask=expiryDetail.expireTime"
      match o req with
      | .error e => .done [req] (renderExc e)
      | .ok _ =>
        let req2 := Request.membershipsGet (Json.str name)
        match o req2 with
        | .error e => .done [req, req2] (renderExc e)
        | .ok m => .done [req, req2] (render_list [m])

/-- Whether a request is a key-to-name lookup call. -/
def isLookupReq : Request → Bool
  | .groupsLookup _ => true
  | _ => false

/-- Number of lookup calls in a request trace. -/
def countLookups (tr : List Request) : Nat :=
  (tr.filter isLookupReq).length

/-- Number of lookup calls issued by a handler run (`exited` issued none). -/
def lookupCount : HandlerResult → Nat
  | .exited _ => 0
  | .done tr _ => countLookups tr

/-- A filesystem on which `build_service` succeeds through the
service-account path. -/
def fsGood : FS :=
  { api_key := some "k123", client_secret_oauth := false, token := none,
    service_account_credentials := true, delegated_email := some "admin@x.com" }

/-- The service `build_service` resolves on `fsGood`. -/
def svGood : Service :=
  { credential := .serviceAccount SCOPES "admin@x.com", developerKey := "k123",
    serviceDiscoveryUrl := discoveryUrl "k123" }

/-- A remote error carrying a raw response body. -/
def errW : ApiError :=
  { msg := "HttpError 503 when requesting resource",
    content := some (Json.obj [("error", Json.str "backendError")]) }

/-- An oracle on which every remote call raises `errW`. -/
def oFail : Oracle := fun _ => .error errW


/-- C1: for every expiry string matching the all-digit pattern, `get_expiry`
returns the input string unchanged; for every other string accepted by the
external date parser, it returns the string of the equivalent Unix epoch
seconds of the parsed calendar date/time. -/
theorem get_expiry_correct (pe : String → Option Int) (s : String) (n : Int) :
    (reSearchDigits s = true → get_expiry pe (some s) = .ok s) ∧
    (reSearchDigits s = false → pe s = some n →
      get_expiry pe (some s) = .ok (toString n)) := by
  refine ⟨fun h => ?_, fun h hp => ?_⟩
  · simp [get_expiry, h]
  · simp [get_expiry, h, hp]

/-- Witness for C1 at an all-digit input and at a date-string input. -/
theorem get_expiry_correct_witness :
    get_expiry (fun _ => some 1575158399) (some "1575158399") = .ok "1575158399" ∧
    get_expiry (fun _ => some 1575158399) (some "Nov 30 2019 23:59:59") =
      .ok "1575158399" :=
  ⟨(get_expiry_correct (fun _ => some 1575158399) "1575158399" 0).1 (by decide),
   (get_expiry_correct (fun _ => some 1575158399) "Nov 30 2019 23:59:59" 1575158399).2
     (by decide) rfl⟩

/-- C8: `groups.get` with neither the name flag nor the key flag renders the
instruction naming the required flags and returns early: no service build
(the result is `done` whatever the filesystem holds), no remote call (the
trace is empty), no crash. -/
theorem groups_get_missing_flags (dir : String) (fs : FS) (o : Oracle) :
    groups_get dir fs o none none =
      .done [] (.exc "Either --name or --key are required." none) := rfl

/-- C9: the expiry flag of `memberships.expire` is optional, so the handler
can run with no expiry; `get_expiry` applied to the absent value raises
inside the wrapped block, the exception is rendered as a value, no request
is issued, and the handler terminates normally. -/
theorem memberships_expire_none_expiry (dir : String) (fs : FS) (sv : Service)
    (o : Oracle) (pe : String → Option Int) (name : String)
    (hfs : build_service dir fs = .ok sv) :
    memberships_expire dir fs o pe name none =
      .done [] (.exc "TypeError: expected string or bytes-like object" none) := by
  simp [memberships_expire, hfs, get_expiry]

/-- Witness for C9 on a concrete filesystem and membership name. -/
theorem memberships_expire_none_expiry_witness :
    memberships_expire "." fsGood oFail (fun _ => none) "groups/g1/memberships/m1" none =
      .done [] (.exc "TypeError: expected string or bytes-like object" none) :=
  memberships_expire_none_expiry "." fsGood svGood oFail (fun _ => none)
    "groups/g1/memberships/m1" rfl

/-- C10: `groups.get` with both flags ignores the key: the run is literally
the run with only the name, and zero lookup calls are issued. -/
theorem groups_get_name_wins (dir : String) (fs : FS) (o : Oracle) (n k : String) :
    groups_get dir fs o (some n) (some k) = groups_get dir fs o (some n) none ∧
    lookupCount (groups_get dir fs o (some n) (some k)) = 0 := by
  constructor
  · rfl
  · cases hb : build_service dir fs with
    | error m => simp [groups_get, hb, lookupCount]
    | ok sv =>
      cases ho : o (Request.groupsGet (some (Json.str n))) with
      | error e => simp [groups_get, hb, ho, lookupCount, countLookups, isLookupReq]
      | ok g => simp [groups_get, hb, ho, lookupCount, countLookups, isLookupReq]

/-- C2: every `memberships.expire` invocation whose expiry parses issues a
patch whose body is exactly the nested expiry-detail block holding the
parsed epoch value and nothing else, with the explicit update mask limited
to the expire-time field. -/
theorem memberships_expire_patch_shape (dir : String) (fs : FS) (sv : Service)
    (o : Oracle) (pe : String → Option Int) (name : String)
    (expiry : Option String) (secs : String)
    (hfs : build_service dir fs = .ok sv)
    (hex : get_expiry pe expiry = .ok secs) :
    ∃ tr out, memberships_expire dir fs o pe name expiry = .done tr out ∧
      tr.head? = some (Request.membershipsPatch name
        (Json.obj [("expiry_detail",
          Json.obj [("expire_time", Json.obj [("seconds", Json.str secs)])])])
        "&updateMask=expiryDetail.expireTime") := by
  simp only [memberships_expire, hfs, hex]
  cases o (Request.membershipsPatch name (expireBody secs)
      "&updateMask=expiryDetail.expireTime") with
  | error e => exact ⟨_, _, rfl, rfl⟩
  | ok r =>
    cases o (Request.membershipsGet (Json.str name)) with
    | error e => exact ⟨_, _, rfl, rfl⟩
    | ok m => exact ⟨_, _, rfl, rfl⟩

/-- Witness for C2 at a concrete membership and epoch expiry. -/
theorem memberships_expire_patch_shape_witness :
    ∃ tr out, memberships_expire "." fsGood oFail (fun _ => none)
        "groups/g1/memberships/m1" (some "1575158399") = .done tr out ∧
      tr.head? = some (Request.membershipsPatch "groups/g1/memberships/m1"
        (Json.obj [("expiry_detail",
          Json.obj [("expire_time", Json.obj [("seconds", Json.str "1575158399")])])])
        "&updateMask=expiryDetail.expireTime") :=
  memberships_expire_patch_shape "." fsGood svGood oFail (fun _ => none)
    "groups/g1/memberships/m1" (some "1575158399") "1575158399" rfl rfl

/-- C4: `groups.get` with only the key issues exactly one lookup call,
then one get call by the name taken from the lookup response; with the name
supplied it issues zero lookup calls and gets by that name directly. -/
theorem groups_get_lookup_discipline (dir : String) (fs : FS) (sv : Service)
    (o : Oracle) (hfs : build_service dir fs = .ok sv) :
    (∀ k lfields, o (Request.groupsLookup ("&groupKey.id=" ++ k)) =
        .ok (Json.obj lfields) →
      ∃ out, groups_get dir fs o none (some k) =
        .done [Request.groupsLookup ("&groupKey.id=" ++ k),
               Request.groupsGet (lookupField lfields "name")] out ∧
        countLookups [Request.groupsLookup ("&groupKey.id=" ++ k),
               Request.groupsGet (lookupField lfields "name")] = 1) ∧
    (∀ n k, ∃ out, groups_get dir fs o (some n) k =
        .done [Request.groupsGet (some (Json.str n))] out ∧
        countLookups [Request.groupsGet (some (Json.str n))] = 0) := by
  constructor
  · intro k lfields hlk
    simp only [groups_get, hfs, hlk]
    cases o (Request.groupsGet (lookupField lfields "name")) with
    | error e => exact ⟨_, rfl, rfl⟩
    | ok g => exact ⟨_, rfl, rfl⟩
  · intro n k
    simp only [groups_get, hfs]
    cases o (Request.groupsGet (some (Json.str n))) with
    | error e => exact ⟨_, rfl, rfl⟩
    | ok g => exact ⟨_, rfl, rfl⟩

/-- An oracle whose every response is a lookup-shaped record. -/
def oLookupW : Oracle := fun _ => .ok (Json.obj [("name", Json.str "groups/abc")])

/-- Witness for C4 resolving a concrete key through one lookup. -/
theorem groups_get_lookup_discipline_witness :
    ∃ out, groups_get "." fsGood oLookupW none (some "team@x.com") =
      .done [Request.groupsLookup "&groupKey.id=team@x.com",
             Request.groupsGet (some (Json.str "groups/abc"))] out ∧
      countLookups [Request.groupsLookup "&groupKey.id=team@x.com",
             Request.groupsGet (some (Json.str "groups/abc"))] = 1 :=
  (groups_get_lookup_discipline "." fsGood svGood oLookupW rfl).1
    "team@x.com" [("name", Json.str "groups/abc")] rfl

/-- If the single issued call failed with `e0`, the rendered exception
output reports every failing call of the trace. -/
theorem renders_of_fail {o : Oracle} {req : Request} {e0 : ApiError}
    (h : o req = .error e0) :
    ∀ r ∈ [req], ∀ e, o r = .error e →
      renderExc e0 = Output.exc e.msg e.content := by
  intro r hr e he
  simp only [List.mem_singleton] at hr
  subst hr
  rw [h] at he
  injection he with h2
  subst h2
  rfl

/-- If the single issued call succeeded, no call of the trace failed, so
any output satisfies the rendering property vacuously. -/
theorem renders_of_ok {o : Oracle} {req : Request} {v : Json} {out : Output}
    (h : o req = .ok v) :
    ∀ r ∈ [req], ∀ e, o r = .error e → out = Output.exc e.msg e.content := by
  intro r hr e he
  simp only [List.mem_singleton] at hr
  subst hr
  rw [h] at he
  exact Except.noConfusion he

/-- If the first issued call succeeded and the second failed with `e0`,
the rendered exception output reports every failing call of the trace. -/
theorem renders_of_ok_fail {o : Oracle} {r1 r2 : Request} {v : Json}
    {e0 : ApiError} (h1 : o r1 = .ok v) (h2 : o r2 = .error e0) :
    ∀ r ∈ [r1, r2], ∀ e, o r = .error e →
      renderExc e0 = Output.exc e.msg e.content := by
  intro r hr e he
  simp only [List.mem_cons, List.mem_singleton, List.not_mem_nil, or_false] at hr
  rcases hr with h | h <;> subst h
  · rw [h1] at he; exact Except.noConfusion he
  · rw [h2] at he; injection he with h3; subst h3; rfl

/-- If both issued calls succeeded, any output satisfies the rendering
property vacuously. -/
theorem renders_of_ok_ok {o : Oracle} {r1 r2 : Request} {v1 v2 : Json}
    {out : Output} (h1 : o r1 = .ok v1) (h2 : o r2 = .ok v2) :
    ∀ r ∈ [r1, r2], ∀ e, o r = .error e → out = Output.exc e.msg e.content := by
  intro r hr e he
  simp only [List.mem_cons, List.mem_singleton, List.not_mem_nil, or_false] at hr
  rcases hr with h | h <;> subst h
  · rw [h1] at he; exact Except.noConfusion he
  · rw [h2] at he; exact Except.noConfusion he

/-- An empty trace satisfies the rendering property vacuously. -/
theorem renders_of_nil {o : Oracle} {out : Output} :
    ∀ r ∈ ([] : List Request), ∀ e, o r = .error e →
      out = Output.exc e.msg e.content := by
  intro r hr
  cases hr

/-- The shared create-then-refetch tail of `memberships.create` terminates
normally on every oracle, rendering whichever of its two calls fails. -/
theorem memberships_create_issue_renders (o : Oracle) (name : String)
    (body : Json) :
    ∃ tr out, memberships_create_issue o name body = .done tr out ∧
      ∀ r ∈ tr, ∀ e, o r = .error e → out = Output.exc e.msg e.content := by
  simp only [memberships_create_issue]
  cases h1 : o (Request.membershipsCreate name body) with
  | error e0 => exact ⟨_, _, rfl, renders_of_fail h1⟩
  | ok resp =>
    simp only [h1]
    cases h2 : pyIndex resp "response" with
    | error m => exact ⟨_, _, rfl, renders_of_ok h1⟩
    | ok rr =>
      simp only [h2]
      cases h3 : pyIndex rr "name" with
      | error m => exact ⟨_, _, rfl, renders_of_ok h1⟩
      | ok nm =>
        simp only [h3]
        cases h4 : o (Request.membershipsGet nm) with
        | error e0 => exact ⟨_, _, rfl, renders_of_ok_fail h1 h4⟩
        | ok m => exact ⟨_, _, rfl, renders_of_ok_ok h1 h4⟩

/-- C3: on every oracle — remote calls may fail at any position, including
a re-fetch failing after a successful create or patch — each of the seven
command handlers terminates normally with a `done` result (no exception
propagates, success and failure differ only in the printed output), and
whenever a call of the issued trace raised an exception, the printed output
is that exception rendered: its string form together with its raw response
body when present. -/
theorem all_commands_render_remote_errors (dir : String) (fs : FS) (sv : Service)
    (o : Oracle) (pe : String → Option Int)
    (cid key gname mname mem : String) (ps : Int)
    (dn desc expiry : Option String)
    (hfs : build_service dir fs = .ok sv) :
    (∃ tr out, groups_create dir fs o cid key dn desc = .done tr out ∧
      ∀ r ∈ tr, ∀ e, o r = .error e → out = Output.exc e.msg e.content) ∧
    (∀ nm k, ∃ tr out, groups_get dir fs o nm k = .done tr out ∧
      ∀ r ∈ tr, ∀ e, o r = .error e → out = Output.exc e.msg e.content) ∧
    (∃ tr out, groups_list dir fs o cid ps = .done tr out ∧
      ∀ r ∈ tr, ∀ e, o r = .error e → out = Output.exc e.msg e.content) ∧
    (∃ tr out, memberships_list dir fs o gname = .done tr out ∧
      ∀ r ∈ tr, ∀ e, o r = .error e → out = Output.exc e.msg e.content) ∧
    (∃ tr out, memberships_get dir fs o mname = .done tr out ∧
      ∀ r ∈ tr, ∀ e, o r = .error e → out = Output.exc e.msg e.content) ∧
    (∃ tr out, memberships_create dir fs o pe gname mem expiry = .done tr out ∧
      ∀ r ∈ tr, ∀ e, o r = .error e → out = Output.exc e.msg e.content) ∧
    (∃ tr out, memberships_expire dir fs o pe mname expiry = .done tr out ∧
      ∀ r ∈ tr, ∀ e, o r = .error e → out = Output.exc e.msg e.content) := by
  refine ⟨?_, ?_, ?_, ?_, ?_, ?_, ?_⟩
  · simp only [groups_create, hfs]
    cases h1 : o (Request.groupsCreate (groupDef cid key dn desc)
        "&initialGroupConfig=WITH_INITIAL_OWNER") with
    | error e0 => exact ⟨_, _, rfl, renders_of_fail h1⟩
    | ok resp =>
      simp only [h1]
      cases h2 : pyIndex resp "response" with
      | error m => exact ⟨_, _, rfl, renders_of_ok h1⟩
      | ok rr =>
        simp only [h2]
        cases h3 : pyIndex rr "name" with
        | error m => exact ⟨_, _, rfl, renders_of_ok h1⟩
        | ok nm =>
          simp only [h3]
          cases h4 : o (Request.groupsGet (some nm)) with
          | error e0 => exact ⟨_, _, rfl, renders_of_ok_fail h1 h4⟩
          | ok g => exact ⟨_, _, rfl, renders_of_ok_ok h1 h4⟩
  · intro nm k
    cases nm with
    | some n =>
      simp only [groups_get, hfs]
      cases h1 : o (Request.groupsGet (some (Json.str n))) with
      | error e0 => exact ⟨_, _, rfl, renders_of_fail h1⟩
      | ok g => exact ⟨_, _, rfl, renders_of_ok h1⟩
    | none =>
      cases k with
      | none => exact ⟨_, _, rfl, renders_of_nil⟩
      | some kk =>
        simp only [groups_get, hfs]
        cases h1 : o (Request.groupsLookup ("&groupKey.id=" ++ kk)) with
        | error e0 => exact ⟨_, _, rfl, renders_of_fail h1⟩
        | ok lresp =>
          cases lresp with
          | obj lfields =>
            simp only [h1]
            cases h2 : o (Request.groupsGet (lookupField lfields "name")) with
            | error e0 => exact ⟨_, _, rfl, renders_of_ok_fail h1 h2⟩
            | ok g => exact ⟨_, _, rfl, renders_of_ok_ok h1 h2⟩
          | null => exact ⟨_, _, rfl, renders_of_ok h1⟩
          | str s => exact ⟨_, _, rfl, renders_of_ok h1⟩
          | num i => exact ⟨_, _, rfl, renders_of_ok h1⟩
          | arr a => exact ⟨_, _, rfl, renders_of_ok h1⟩
  · simp only [groups_list, hfs]
    cases h1 : o (Request.groupsSearch (searchQuery cid) ps "BASIC") with
    | error e0 => exact ⟨_, _, rfl, renders_of_fail h1⟩
    | ok resp =>
      simp only [h1]
      cases h2 : pyIndex resp "groups" with
      | error m => exact ⟨_, _, rfl, renders_of_ok h1⟩
      | ok gs =>
        cases gs with
        | arr rows => exact ⟨_, _, rfl, renders_of_ok h1⟩
        | null => exact ⟨_, _, rfl, renders_of_ok h1⟩
        | str s => exact ⟨_, _, rfl, renders_of_ok h1⟩
        | num i => exact ⟨_, _, rfl, renders_of_ok h1⟩
        | obj f => exact ⟨_, _, rfl, renders_of_ok h1⟩
  · simp only [memberships_list, hfs]
    cases h1 : o (Request.membershipsList gname "&view=FULL") with
    | error e0 => exact ⟨_, _, rfl, renders_of_fail h1⟩
    | ok resp =>
      simp only [h1]
      cases h2 : pyIndex resp "memberships" with
      | error m => exact ⟨_, _, rfl, renders_of_ok h1⟩
      | ok ms =>
        cases ms with
        | arr l =>
          cases l with
          | nil => exact ⟨_, _, rfl, renders_of_ok h1⟩
          | cons m0 rest =>
            cases m0 with
            | obj f0 => exact ⟨_, _, rfl, renders_of_ok h1⟩
            | null => exact ⟨_, _, rfl, renders_of_ok h1⟩
            | str s => exact ⟨_, _, rfl, renders_of_ok h1⟩
            | num i => exact ⟨_, _, rfl, renders_of_ok h1⟩
            | arr a => exact ⟨_, _, rfl, renders_of_ok h1⟩
        | null => exact ⟨_, _, rfl, renders_of_ok h1⟩
        | str s => exact ⟨_, _, rfl, renders_of_ok h1⟩
        | num i => exact ⟨_, _, rfl, renders_of_ok h1⟩
        | obj f => exact ⟨_, _, rfl, renders_of_ok h1⟩
  · simp only [memberships_get, hfs]
    cases h1 : o (Request.membershipsGet (Json.str mname)) with
    | error e0 => exact ⟨_, _, rfl, renders_of_fail h1⟩
    | ok r => exact ⟨_, _, rfl, renders_of_ok h1⟩
  · simp only [memberships_create, hfs]
    cases hp : pyTruthy expiry with
    | false => exact memberships_create_issue_renders o gname (membershipBody mem none)
    | true =>
      cases hg : get_expiry pe expiry with
      | error m => exact ⟨_, _, rfl, renders_of_nil⟩
      | ok secs =>
        exact memberships_create_issue_renders o gname (membershipBody mem (some secs))
  · simp only [memberships_expire, hfs]
    cases hg : get_expiry pe expiry with
    | error m => exact ⟨_, _, rfl, renders_of_nil⟩
    | ok secs =>
      simp only [hg]
      cases h1 : o (Request.membershipsPatch mname (expireBody secs)
          "&updateMask=expiryDetail.expireTime") with
      | error e0 => exact ⟨_, _, rfl, renders_of_fail h1⟩
      | ok v =>
        simp only [h1]
        cases h2 : o (Request.membershipsGet (Json.str mname)) with
        | error e0 => exact ⟨_, _, rfl, renders_of_ok_fail h1 h2⟩
        | ok m => exact ⟨_, _, rfl, renders_of_ok_ok h1 h2⟩

/-- A mixed oracle: the create call succeeds, every later call (in
particular the re-fetch) fails. -/
def oRefetchFail : Oracle := fun r =>
  match r with
  | .groupsCreate _ _ =>
    .ok (Json.obj [("response", Json.obj [("name", Json.str "groups/abc")])])
  | _ => .error errW

/-- Witness for C3: a partial failure — the group create succeeds and the
re-fetch raises — is still rendered as the failing call error. -/
theorem all_commands_render_remote_errors_witness :
    ∃ tr out, groups_create "." fsGood oRefetchFail "C123" "team@x.com"
        (some "Team") none = .done tr out ∧
      ∀ r ∈ tr, ∀ e, oRefetchFail r = .error e →
        out = Output.exc e.msg e.content :=
  (all_commands_render_remote_errors "." fsGood svGood oRefetchFail (fun _ => none)
    "C123" "team@x.com" "groups/g1" "groups/g1/memberships/m1" "user@x.com" 10
    (some "Team") none none rfl).1

/-- C5: `build_service` exits fatally with its explanatory message when the
api key file is missing, or when the service-account path is unavailable
and the OAuth client-secret file or the stored token file is missing; when
both service-account files exist it yields a service-account credential
scoped to the groups permission impersonating the stripped email read from
the delegated-email file; otherwise it loads the stored OAuth token. -/
theorem build_service_resolution (dir : String) (fs : FS) :
    (fs.api_key = none →
      build_service dir fs =
        .error ("Please create a file with your API key at " ++ API_KEY_FILE dir)) ∧
    (∀ k e, fs.api_key = some k → fs.service_account_credentials = true →
      fs.delegated_email = some e →
      build_service dir fs =
        .ok { credential := .serviceAccount SCOPES (pyStrip e),
              developerKey := pyStrip k,
              serviceDiscoveryUrl := discoveryUrl (pyStrip k) }) ∧
    (∀ k, fs.api_key = some k →
      (fs.service_account_credentials = false ∨ fs.delegated_email = none) →
      fs.client_secret_oauth = false →
      build_service dir fs =
        .error "Please download your Oauth client file (client_secret_oauth.json).") ∧
    (∀ k, fs.api_key = some k →
      (fs.service_account_credentials = false ∨ fs.delegated_email = none) →
      fs.client_secret_oauth = true → fs.token = none →
      build_service dir fs = .error "Please run login.py to set up authentication") ∧
    (∀ k t, fs.api_key = some k →
      (fs.service_account_credentials = false ∨ fs.delegated_email = none) →
      fs.client_secret_oauth = true → fs.token = some t →
      build_service dir fs =
        .ok { credential := .oauthToken t,
              developerKey := pyStrip k,
              serviceDiscoveryUrl := discoveryUrl (pyStrip k) }) := by
  refine ⟨?_, ?_, ?_, ?_, ?_⟩
  · intro h; simp [build_service, h]
  · intro k e hk hsa hde; simp [build_service, hk, hsa, hde]
  · intro k hk hcond hcs
    rcases hcond with hsa | hde
    · simp [build_service, hk, hsa, hcs]
    · cases hsa2 : fs.service_account_credentials <;>
        simp [build_service, hk, hsa2, hde, hcs]
  · intro k hk hcond hcs htok
    rcases hcond with hsa | hde
    · simp [build_service, hk, hsa, hcs, htok]
    · cases hsa2 : fs.service_account_credentials <;>
        simp [build_service, hk, hsa2, hde, hcs, htok]
  · intro k t hk hcond hcs htok
    rcases hcond with hsa | hde
    · simp [build_service, hk, hsa, hcs, htok]
    · cases hsa2 : fs.service_account_credentials <;>
        simp [build_service, hk, hsa2, hde, hcs, htok]

/-- Witness for C5 on the service-account filesystem fixture. -/
theorem build_service_resolution_witness :
    build_service "." fsGood =
      .ok { credential := .serviceAccount SCOPES (pyStrip "admin@x.com"),
            developerKey := pyStrip "k123",
            serviceDiscoveryUrl := discoveryUrl (pyStrip "k123") } :=
  (build_service_resolution "." fsGood).2.1 "k123" "admin@x.com" rfl rfl rfl

/-- C6: `groups.create` builds the body holding the customer parent, the
given key and the discussion-forum label, issues the create, re-fetches by
the name nested under `response` in the create response, and renders the
re-fetched group; when the remote echoes the created fields, the rendered
key and customer parent match the creation inputs. -/
theorem groups_create_refetch (dir : String) (fs : FS) (sv : Service) (o : Oracle)
    (cid key : String) (dn desc : Option String) (resp rr nm : Json)
    (gfields : List (String × Json))
    (hfs : build_service dir fs = .ok sv)
    (hcreate : o (Request.groupsCreate (groupDef cid key dn desc)
      "&initialGroupConfig=WITH_INITIAL_OWNER") = .ok resp)
    (hresp : pyIndex resp "response" = .ok rr)
    (hname : pyIndex rr "name" = .ok nm)
    (hget : o (Request.groupsGet (some nm)) = .ok (Json.obj gfields))
    (hecho : ∀ f, f = "groupKey" ∨ f = "parent" →
      lookupField gfields f = Json.get (groupDef cid key dn desc) f) :
    groups_create dir fs o cid key dn desc =
      .done [Request.groupsCreate (groupDef cid key dn desc)
             "&initialGroupConfig=WITH_INITIAL_OWNER",
             Request.groupsGet (some nm)]
        (Output.table [Json.obj gfields]) ∧
    lookupField gfields "groupKey" = some (Json.obj [("id", Json.str key)]) ∧
    lookupField gfields "parent" = some (Json.str ("customerId/" ++ cid)) := by
  refine ⟨?_, ?_, ?_⟩
  · simp [groups_create, hfs, hcreate, hresp, hname, hget, render_list, Json.isObj]
  · rw [hecho "groupKey" (Or.inl rfl)]; rfl
  · rw [hecho "parent" (Or.inr rfl)]; rfl

/-- The create response of the remote fixture for C6. -/
def gRespW : Json := Json.obj [("response", Json.obj [("name", Json.str "groups/abc")])]

/-- The stored group record of the remote fixture for C6. -/
def gGotW : List (String × Json) :=
  [("name", Json.str "groups/abc"),
   ("groupKey", Json.obj [("id", Json.str "team@x.com")]),
   ("parent", Json.str "customerId/C123")]

/-- A store-like oracle for C6: create yields an operation response naming
the group; every other call yields the stored record. -/
def oCreateW : Oracle := fun r =>
  match r with
  | .groupsCreate _ _ => .ok gRespW
  | _ => .ok (Json.obj gGotW)

/-- Witness for C6 creating and re-fetching a concrete group. -/
theorem groups_create_refetch_witness :
    groups_create "." fsGood oCreateW "C123" "team@x.com" (some "Team") none =
      .done [Request.groupsCreate (groupDef "C123" "team@x.com" (some "Team") none)
             "&initialGroupConfig=WITH_INITIAL_OWNER",
             Request.groupsGet (some (Json.str "groups/abc"))]
        (Output.table [Json.obj gGotW]) ∧
    lookupField gGotW "groupKey" = some (Json.obj [("id", Json.str "team@x.com")]) ∧
    lookupField gGotW "parent" = some (Json.str ("customerId/" ++ "C123")) :=
  groups_create_refetch "." fsGood svGood oCreateW "C123" "team@x.com"
    (some "Team") none gRespW (Json.obj [("name", Json.str "groups/abc")])
    (Json.str "groups/abc") gGotW rfl rfl rfl rfl rfl
    (fun f hf => by rcases hf with h | h <;> subst h <;> rfl)

/-- C7: `memberships.list` on memberships that carry no expiry does not
raise: when the first returned record lacks the expire-time key, an empty
string is synthesized into that record (appended in dict order) and the
whole list is rendered as a table. -/
theorem memberships_list_synthesizes_expiry (dir : String) (fs : FS) (sv : Service)
    (o : Oracle) (gname : String) (resp : Json) (f0 : List (String × Json))
    (rest : List Json)
    (hfs : build_service dir fs = .ok sv)
    (ho : o (Request.membershipsList gname "&view=FULL") = .ok resp)
    (hm : pyIndex resp "memberships" = .ok (Json.arr (Json.obj f0 :: rest)))
    (hnoexp : lookupField f0 "expireTime" = none)
    (hrest : rest.all Json.isObj = true) :
    memberships_list dir fs o gname =
      .done [Request.membershipsList gname "&view=FULL"]
        (Output.table (Json.obj (f0 ++ [("expireTime", Json.str "")]) :: rest)) := by
  simp [memberships_list, hfs, ho, hm, hnoexp, render_list, Json.isObj, hrest]

/-- The full-view list response of the remote fixture for C7: one
membership record with no expire-time field. -/
def mListRespW : Json := Json.obj [("memberships",
  Json.arr [Json.obj [("name", Json.str "groups/g1/memberships/m1"),
                      ("preferredMemberKey", Json.obj [("id", Json.str "user@x.com")])]])]

/-- An oracle for C7 answering the list call with `mListRespW`. -/
def oMListW : Oracle := fun _ => .ok mListRespW

/-- Witness for C7 on a concrete expiry-free membership list. -/
theorem memberships_list_synthesizes_expiry_witness :
    memberships_list "." fsGood oMListW "groups/g1" =
      .done [Request.membershipsList "groups/g1" "&view=FULL"]
        (Output.table (Json.obj ([("name", Json.str "groups/g1/memberships/m1"),
             ("preferredMemberKey", Json.obj [("id", Json.str "user@x.com")])]
               ++ [("expireTime", Json.str "")]) :: [])) :=
  memberships_list_synthesizes_expiry "." fsGood svGood oMListW "groups/g1"
    mListRespW
    [("name", Json.str "groups/g1/memberships/m1"),
     ("preferredMemberKey", Json.obj [("id", Json.str "user@x.com")])]
    [] rfl rfl rfl rfl rfl
